import Mathlib

/-!
Verification of the conversational-agent orchestration core of the
phase-3-backend repository (Python), as a shallow embedding in Lean 4.

Embedded source files:
* `src/src/models/message.py` — the `MessageRole` enum and `Message` model;
* `src/src/agent/config.py` — agent configuration, the system prompt
  (`get_system_prompt`) and `format_conversation_history`;
* `src/src/agent/runner.py` — `create_agent`, `run_agent`,
  `run_agent_streamed` and `load_conversation_history`.

The repository delegates the model/tool round-trip loop to the external
`agents` SDK (`Runner.run` / `Runner.run_streamed`).  The embedding keeps
the repository's own control flow and data flow exact, and treats one
invocation of the external runner as an oracle (`RunOutcome`): the outcome
a `Runner.run` call would produce — either a deterministic model response
or a raised error.  Everything the repository's code does around that call
(prompt assembly, the identity tag, history formatting and windowing, the
empty-output fallback, exception propagation, the `finally` cleanup of the
MCP connection) is translated directly from the source.

Timestamps are modelled as natural numbers, database ids as natural
numbers, and the SQL query of `load_conversation_history`
(`ORDER BY created_at DESC LIMIT n`) as a merge sort by descending
`created_at` followed by `take`.
-/

/-- Enum `MessageRole` of `src/src/models/message.py` (lines 17-27):
who sent a message, the user or the assistant. -/
inductive MessageRole where
  | user
  | assistant
deriving DecidableEq

/-- String value of the `MessageRole` str-enum: `user = "user"`,
`assistant = "assistant"`. -/
def MessageRole.value : MessageRole → String
  | .user => "user"
  | .assistant => "assistant"

/-- Model `Message` of `src/src/models/message.py` (lines 30-98): a chat
message row.  `id` and `conversation_id` (UUIDs in the source) and the
`created_at` timestamp are modelled as natural numbers. -/
structure Message where
  id : Nat
  conversation_id : Nat
  user_id : String
  role : MessageRole
  content : String
  created_at : Nat
deriving DecidableEq

/-- Default of the `MAX_CONVERSATION_HISTORY` setting
(`src/src/agent/config.py` line 20): the history window size. -/
def MAX_CONVERSATION_HISTORY_default : Nat := 50

/-- Keys of the dict returned by `get_agent_config`
(`src/src/agent/config.py` lines 129-143).  The configuration exposes the
model name, sampling settings, the MCP server url and timeout, and the
history window size — these six keys and nothing else. -/
def agentConfigKeys : List String :=
  ["model", "temperature", "max_tokens", "mcp_server_url",
   "mcp_timeout_seconds", "max_conversation_history"]

/-- Opening segment of the system prompt of `get_system_prompt`
(`src/src/agent/config.py` lines 58-61), up to the first interpolation of
the current date. -/
def promptPart1 : String :=
  "You are \"Aura AI\", a highly sophisticated, premium Task Management Assistant. Your goal is to simplify the user\x27s life by autonomously managing their tasks with extreme precision and intelligence.\n"
  ++ "\n"
  ++ "## Critical Context\n"
  ++ "- **Today\x27s Date**: "

/-- Middle segment of the system prompt (`src/src/agent/config.py`
lines 61-115), between the first date interpolation and the
single-execution rule. -/
def promptPart2a : String :=
  " (You MUST use this as your reference point for all relative dates like \"tomorrow\", \"next week\", etc.)\n"
  ++ "\n"
  ++ "## Role & Personality\n"
  ++ "- **Identity**: Aura AI (Premium, sleek, efficient).\n"
  ++ "- **Voice**: Professional, helpful, proactive, and concise.\n"
  ++ "- **Autonomy**: You are NOT just a tool-caller; you are a problem-solver. You should infer missing details and select logical defaults when the user is vague.\n"
  ++ "\n"
  ++ "## Autonomous Intelligence Guidelines\n"
  ++ "\n"
  ++ "### 1. Smart Field Selection\n"
  ++ "When a user asks to add or update a task, you MUST autonomously select the most appropriate fields:\n"
  ++ "- **Priority**: \n"
  ++ "    - `high`: If the user mentions \"urgent\", \"asap\", \"important\", \"critical\", or uses strong language.\n"
  ++ "    - `medium`: Default for most work/personal tasks.\n"
  ++ "    - `low`: For ideas, \"sometime\", or background tasks.\n"
  ++ "- **Category**:\n"
  ++ "    - `work`: Meetings, emails, reports, professional projects.\n"
  ++ "    - `home`: Chores, cleaning, repairs, household management.\n"
  ++ "    - `personal`: Hobbies, family, personal errands.\n"
  ++ "    - `shopping`: \"buy\", \"get\", \"store\", \"order\", \"groceries\".\n"
  ++ "    - `health`: \"exercise\", \"dentist\", \"gym\", \"meditation\", \"doctor\", \"health\".\n"
  ++ "    - `finance`: \"pay\", \"bill\", \"invoice\", \"bank\", \"taxes\", \"subscription\".\n"
  ++ "    - `other`: Default.\n"
  ++ "    *CRITICAL*: You MUST select the most logical category. Do NOT default to \"other\" if a keyword matches.\n"
  ++ "\n"
  ++ "- **Description**:\n"
  ++ "    - When creating a task, write a brief, professional description if the user provides context. If not, don\x27t hallucinate; keep it empty or very minimal.\n"
  ++ "- **Due Date**: Infer dates like \"tomorrow\", \"next Friday\", \"in 2 hours\". Convert them to ISO 8601 strings (YYYY-MM-DDTHH:MM:SS) for the tool.\n"
  ++ "- **Recurring**:\n"
  ++ "    - Detect words like \"every\", \"weekly\", \"daily\", \"monthly\".\n"
  ++ "    - Set `is_recurring=True` and the appropriate `recurring_interval`.\n"
  ++ "\n"
  ++ "### 2. Context Retrieval (Multi-Step Logic)\n"
  ++ "- **ID Awareness**: If the user says \"Mark it as done\" or \"Update the grocery task\", you MUST first call `list_tasks` to find the correct `task_id`. Do NOT guess or hallucinate IDs.\n"
  ++ "- **Refinement**: If multiple tasks match, ask for clarification.\n"
  ++ "\n"
  ++ "## Tool Usage Protocols\n"
  ++ "\n"
  ++ "### 1. add_task\n"
  ++ "Use for creating. **Always** attempt to populate `priority`, `category`, and `due_date` even if not explicitly provided.\n"
  ++ "Example: \"I need to buy milk tomorrow\" -> `add_task(title=\"Buy milk\", category=\"shopping\", due_date=\"<ISO_DATE>\", priority=\"medium\")`.\n"
  ++ "\n"
  ++ "### 2. list_tasks\n"
  ++ "Use for searching. If the user asks \"What\x27s on my plate?\", show them ALL pending tasks. **Use the `search` parameter** to find specific tasks by title if you need their ID for updating or deleting.\n"
  ++ "\n"
  ++ "### 3. complete_task\n"
  ++ "Always find the ID first via `list_tasks`.\n"
  ++ "\n"
  ++ "### 4. update_task\n"
  ++ "Use for modifying ANY field. **Always find the ID first via `list_tasks`** before updating.\n"
  ++ "\n"
  ++ "### 5. delete_task\n"
  ++ "ONLY use if explicitly asked to remove/delete. **Always find the ID first via `list_tasks`** before deleting.\n"
  ++ "\n"
  ++ "## CRITICAL: Execution & Response\n"

/-- Single-execution rule of the system prompt (`src/src/agent/config.py`
line 116): the prompt-level — not code-level — guard against duplicate
tool calls. -/
def singleExecutionRule : String :=
  "- **Single Execution**: ONLY call a tool ONCE per user request. If you\x27ve already called `add_task` for a specific request, DO NOT call it again for that SAME request.\n"

/-- Segment of the system prompt between the single-execution rule and the
security rule (`src/src/agent/config.py` lines 117-123). -/
def promptPart2b : String :=
  "- **Verification**: After adding a task, verify the result and inform the user. Do NOT repeat the action if it succeeded.\n"
  ++ "- **Standard Markdown & HTML**: Your responses are rendered with support for `<p>` tags and standard Markdown. Use them for elegant formatting.\n"
  ++ "- **Lists**: Use bullet points for task steps.\n"
  ++ "- **Streaming Compatibility**: Your responses are streamed chunk-by-chunk. Keep your tone fluid.\n"
  ++ "\n"
  ++ "## Boundaries\n"
  ++ "- **Scope**: You ONLY manage tasks. For unrelated questions, respond: \"I\x27m sorry, I\x27m specialized in managing your tasks and I can\x27t do that. Is there a task I can help you with?\"\n"

/-- Security rule of the system prompt (`src/src/agent/config.py`
line 124): the model is instructed to extract the user id from the prompt
text and pass it to every tool call — identity flows through model-echoed
text, not through the dispatcher. -/
def securityRule : String :=
  "- **Security**: You MUST extract the `[User ID: <user_id>]` from the first line and pass it to every tool call.\n"

/-- Segment of the system prompt between the security rule and the second
interpolation of the current date (`src/src/agent/config.py` line 126). -/
def promptPart2c : String :=
  "\n"
  ++ "Remember: Your value is in your ability to \"just get it done\" without the user needing to specify every tiny detail. Always use the current date ("

/-- Closing segment of the system prompt after the second date
interpolation (`src/src/agent/config.py` line 126). -/
def promptPart3 : String :=
  ") to calculate due dates correctly."

/-- Function `get_system_prompt` of `src/src/agent/config.py`
(lines 44-126).  The source computes `today = datetime.now().strftime(...)`
on every call and interpolates it twice into an f-string; the embedding
takes the formatted date as the explicit parameter `today` and returns the
same concatenation. -/
def get_system_prompt (today : String) : String :=
  promptPart1 ++ today ++ promptPart2a ++ singleExecutionRule ++ promptPart2b
    ++ securityRule ++ promptPart2c ++ today ++ promptPart3

/-- Role-tagged chat message dict (`{"role": ..., "content": ...}`) as
assembled by `format_conversation_history` and `run_agent`. -/
structure ChatMessage where
  role : String
  content : String
deriving DecidableEq

/-- Function `format_conversation_history` of `src/src/agent/config.py`
(lines 146-162): maps each stored `Message` to a dict with the lower-cased
enum value as role and the stored content, preserving order. -/
def format_conversation_history (messages : List Message) : List ChatMessage :=
  messages.map (fun msg => { role := msg.role.value.toLower, content := msg.content })

/-- Comparison used by the query of `load_conversation_history`
(`ORDER BY created_at DESC`, `src/src/agent/runner.py` line 294):
`a` comes no later than `b` in descending order when `b.created_at ≤
a.created_at`. -/
def byCreatedAtDesc (a b : Message) : Bool :=
  decide (b.created_at ≤ a.created_at)

/-- Messages of one conversation, as selected by the `WHERE` clause of
`load_conversation_history` (`src/src/agent/runner.py` line 293). -/
def conversationMessages (store : List Message) (conversation_id : Nat) :
    List Message :=
  store.filter (fun m => m.conversation_id == conversation_id)

/-- Default of the `limit` parameter of `load_conversation_history`
(`src/src/agent/runner.py` line 270). -/
def load_limit_default : Nat := 50

/-- Function `load_conversation_history` of `src/src/agent/runner.py`
(lines 267-301): select the conversation's messages, order by `created_at`
descending, take at most `limit`, then reverse into chronological order
(oldest first).  The store is modelled as the list of all message rows. -/
def load_conversation_history (store : List Message) (conversation_id : Nat)
    (limit : Nat) : List Message :=
  (((conversationMessages store conversation_id).mergeSort
      byCreatedAtDesc).take limit).reverse

/-- Message content assembled by `run_agent` and `run_agent_streamed`
(`src/src/agent/runner.py` lines 150 and 224):
`f"[User ID: {user_id}]\n{message}"` — the machine-readable identity tag
prepended to the user's text. -/
def full_message (user_id message : String) : String :=
  "[User ID: " ++ user_id ++ "]\n" ++ message

/-- New user message dict built by `run_agent` (`src/src/agent/runner.py`
line 153): `{"role": "user", "content": full_message}`. -/
def new_user_message (user_id message : String) : ChatMessage :=
  { role := "user", content := full_message user_id message }

/-- Input list passed to the runner (`src/src/agent/runner.py` line 154):
`full_input = history + [new_user_message]`, where `history` is the
already-formatted conversation history. -/
def full_input (user_id message : String) (history : List ChatMessage) :
    List ChatMessage :=
  history ++ [new_user_message user_id message]

/-- Complete message sequence the model receives for one turn: the agent's
instructions (`get_system_prompt`, installed on the `Agent` at
`src/src/agent/runner.py` lines 101-105) as the system block, followed by
`full_input`. -/
def model_messages (today user_id message : String)
    (history : List ChatMessage) : List ChatMessage :=
  { role := "system", content := get_system_prompt today } ::
    full_input user_id message history

/-- Tool invocation requested by the model over the MCP protocol: a tool
name and its (canonicalized) argument map, modelled as a key/value list. -/
structure ToolCall where
  name : String
  arguments : List (String × String)
deriving DecidableEq

/-- Canonical signature of a tool call — the (tool name, canonicalized
argument set) pair used to compare invocations within one turn. -/
def ToolCall.signature (c : ToolCall) : String × List (String × String) :=
  (c.name, c.arguments)

/-- Events of the runner's event stream as consumed by
`run_agent_streamed` (`src/src/agent/runner.py` lines 242-254):
`textDelta` stands for a `raw_response_event` whose data is a
`ResponseTextDeltaEvent`; `rawOther` for a `raw_response_event` with any
other payload; the remaining constructors match the other `event.type`
branches of the source, which are logged and not forwarded. -/
inductive StreamEvent where
  | textDelta (delta : String)
  | rawOther
  | toolCallEvent (info : String)
  | toolCallResultEvent (info : String)
  | errorEvent (info : String)
deriving DecidableEq

/-- Text-delta payloads of an event list, in emission order — exactly the
chunks the `async for` loop of `run_agent_streamed` yields. -/
def textDeltas (events : List StreamEvent) : List String :=
  events.filterMap (fun e =>
    match e with
    | .textDelta d => some d
    | _ => none)

/-- Deterministic response of one run of the external runner: the event
stream it emits and the tool calls the model requests during the run.
For a deterministic plain-text response the runner's `final_output` is the
concatenation of its text deltas. -/
structure ModelResponse where
  events : List StreamEvent
  toolRequests : List ToolCall
deriving DecidableEq

/-- Final output of a deterministic run (`result.final_output`,
`src/src/agent/runner.py` line 166): the concatenation of the run's text
deltas. -/
def final_output (r : ModelResponse) : String :=
  String.join (textDeltas r.events)

/-- Errors a turn can raise.  `missingApiKey` is the `ValueError` of
`create_agent` (`src/src/agent/runner.py` lines 60-63); `connectFailure`
is a failure of the MCP `__aenter__` (line 98); the remaining three are
exceptions a `Runner.run` call can raise: a model-provider failure, a tool
connection failure, or cooperative cancellation. -/
inductive AgentError where
  | missingApiKey
  | connectFailure
  | modelProviderError
  | toolConnectionError
  | cancelled
deriving DecidableEq

/-- Outcome one invocation of the external runner (`Runner.run` /
`Runner.run_streamed`) would produce: a deterministic model response, or a
raised error together with the events already emitted and the tool calls
already executed before the failure. -/
inductive RunOutcome where
  | success (r : ModelResponse)
  | failure (e : AgentError) (partialEvents : List StreamEvent)
      (partialCalls : List ToolCall)
deriving DecidableEq

/-- Oracle describing the environment of one turn: whether the API key is
set, whether the MCP connection succeeds, the outcome of the single
`Runner.run` call the code makes, and the outcome a second attempt would
have had (the source never makes one — this field records the road not
taken). -/
structure TurnBehavior where
  apiKeyPresent : Bool
  connectSucceeds : Bool
  firstRun : RunOutcome
  retryRun : RunOutcome
deriving DecidableEq

/-- Ledger of MCP connection lifecycle events during one turn: how many
connections were opened (`__aenter__`) and how many closed (`__aexit__`). -/
structure ConnLedger where
  opened : Nat
  closed : Nat
deriving DecidableEq

/-- Arguments `run_agent` hands to the external runner
(`src/src/agent/runner.py` lines 159-164): the assembled input list and
the out-of-band call context `context={"user_id": user_id}`. -/
structure RunnerInvocation where
  input : List ChatMessage
  context_user_id : String
deriving DecidableEq

/-- Result of `run_agent`: either the returned answer text or the
exception that propagated out. -/
inductive TurnOutcome where
  | answer (text : String)
  | raised (e : AgentError)
deriving DecidableEq

/-- Observable effects of one `run_agent` turn: its outcome, the runner
invocation made (none when `create_agent` raised first), the tool calls
executed against the MCP server, how many `Runner.run` attempts were made,
and the connection ledger. -/
structure TurnResult where
  outcome : TurnOutcome
  invocation : Option RunnerInvocation
  executedCalls : List ToolCall
  providerAttempts : Nat
  ledger : ConnLedger
deriving DecidableEq

/-- Fallback answer of `run_agent` for an empty final output
(`src/src/agent/runner.py` line 171). -/
def fallbackAnswer : String :=
  "I\x27m sorry, I processed your request but didn\x27t generate a response. How else can I help?"

/-- Tool calls the MCP server executes, as a function of the calls the
model requests.  `run_agent` installs the MCP server directly on the
`Agent` (`src/src/agent/runner.py` lines 101-105) and performs no per-call
interception: no seen-signature set, no filtering, no argument rewriting
(lines 139-176 contain no code that touches tool calls).  Every requested
call is therefore executed as requested. -/
def dispatched (requests : List ToolCall) : List ToolCall :=
  requests

/-- Outcome of `create_agent` (`src/src/agent/runner.py` lines 32-107)
together with the number of MCP connections it opened: the API-key check
(lines 60-63) precedes the MCP `__aenter__` (line 98), so both failure
paths leave zero connections open; on success exactly one connection is
open. -/
def create_agent_opens (b : TurnBehavior) :
    Except AgentError Unit × Nat :=
  if !b.apiKeyPresent then (.error .missingApiKey, 0)
  else if !b.connectSucceeds then (.error .connectFailure, 0)
  else (.ok (), 1)

/-- Function `run_agent` of `src/src/agent/runner.py` (lines 110-184).
Control flow of the source: `create_agent` inside the `try` (a failure
there leaves `mcp_server = None`, so the `finally` closes nothing); then
format the history, build `full_message` and `full_input`, and call
`Runner.run` exactly once with `context={"user_id": user_id}`.  On
success, return `final_output`, or the fallback apology when the output is
empty.  On an exception, log and re-raise.  The `finally` block closes the
MCP connection on every exit path. -/
def run_agent (b : TurnBehavior) (user_id message : String)
    (conversation_history : List Message) : TurnResult :=
  match create_agent_opens b with
  | (.error e, n) =>
      { outcome := .raised e
        invocation := none
        executedCalls := []
        providerAttempts := 0
        ledger := { opened := n, closed := n } }
  | (.ok _, _) =>
      let history := format_conversation_history conversation_history
      let inv : RunnerInvocation :=
        { input := full_input user_id message history
          context_user_id := user_id }
      match b.firstRun with
      | .failure e _ partialCalls =>
          { outcome := .raised e
            invocation := some inv
            executedCalls := dispatched partialCalls
            providerAttempts := 1
            ledger := { opened := 1, closed := 1 } }
      | .success r =>
          let output := final_output r
          { outcome :=
              .answer (if output = "" then fallbackAnswer else output)
            invocation := some inv
            executedCalls := dispatched r.toolRequests
            providerAttempts := 1
            ledger := { opened := 1, closed := 1 } }

/-- Observable effects of one `run_agent_streamed` turn: the text chunks
yielded to the caller, the runner invocation made (none when
`create_agent` raised first), and the connection ledger. -/
structure StreamedResult where
  chunks : List String
  invocation : Option RunnerInvocation
  ledger : ConnLedger
deriving DecidableEq

/-- Function `run_agent_streamed` of `src/src/agent/runner.py`
(lines 187-264): same setup as `run_agent` (formatted history, identity
tag, `full_input`, `context={"user_id": user_id}`), then iterate the event
stream and yield only the text-delta payloads — the
`raw_response_event` / `ResponseTextDeltaEvent` branch of lines 246-248 —
in emission order; the other event kinds are logged and not yielded.  The
`finally` closes the MCP connection. -/
def run_agent_streamed (b : TurnBehavior) (user_id message : String)
    (conversation_history : List Message) : StreamedResult :=
  match create_agent_opens b with
  | (.error _, n) =>
      { chunks := []
        invocation := none
        ledger := { opened := n, closed := n } }
  | (.ok _, _) =>
      let history := format_conversation_history conversation_history
      let inv : RunnerInvocation :=
        { input := full_input user_id message history
          context_user_id := user_id }
      match b.firstRun with
      | .failure _ partialEvents _ =>
          { chunks := textDeltas partialEvents
            invocation := some inv
            ledger := { opened := 1, closed := 1 } }
      | .success r =>
          { chunks := textDeltas r.events
            invocation := some inv
            ledger := { opened := 1, closed := 1 } }

/-- Example tool call: the create-task capability invoked for user
`alice`. -/
def exampleCall : ToolCall :=
  { name := "add_task"
    arguments := [("user_id", "alice"), ("title", "Buy milk")] }

/-- Example tool call whose model-supplied `user_id` argument names a
different user than the authenticated one. -/
def spoofedCall : ToolCall :=
  { name := "add_task"
    arguments := [("user_id", "mallory"), ("title", "x")] }

/-- Example deterministic response: plain text, no tool calls. -/
def okResponse : ModelResponse :=
  { events := [.textDelta "All set."], toolRequests := [] }

/-- Example deterministic response in which the model requests the same
tool with the same canonicalized arguments twice. -/
def duplicateResponse : ModelResponse :=
  { events := [.textDelta "Added."], toolRequests := [exampleCall, exampleCall] }

/-- Example deterministic response carrying the spoofed-identity call. -/
def spoofResponse : ModelResponse :=
  { events := [.textDelta "Done."], toolRequests := [spoofedCall] }

/-- Nine pairwise distinct tool calls — one more than the iteration cap of
8 the specification posits. -/
def nineCalls : List ToolCall :=
  (List.range 9).map (fun i =>
    { name := "list_tasks"
      arguments := [("user_id", "alice"), ("page", toString i)] })

/-- Example deterministic response requesting nine tool calls before a
final text answer. -/
def manyCallsResponse : ModelResponse :=
  { events := [.textDelta "done"], toolRequests := nineCalls }

/-- Example deterministic response whose final output is empty: the model
emits a tool-call event but no text delta. -/
def emptyOutputResponse : ModelResponse :=
  { events := [.toolCallEvent "add_task"], toolRequests := [exampleCall] }

/-- Environment in which the API key is set, the MCP connection succeeds
and the runner returns the given response. -/
def behaviorOk (r : ModelResponse) : TurnBehavior :=
  { apiKeyPresent := true
    connectSucceeds := true
    firstRun := .success r
    retryRun := .success r }

/-- Environment in which the first runner attempt raises `e` while a
second attempt — which the code never makes — would have succeeded. -/
def behaviorFailFirst (e : AgentError) : TurnBehavior :=
  { apiKeyPresent := true
    connectSucceeds := true
    firstRun := .failure e [] []
    retryRun := .success okResponse }

/-- Example message rows: three messages of conversation 7 with pairwise
distinct timestamps, and one message of another conversation. -/
def msgOlder : Message :=
  { id := 1, conversation_id := 7, user_id := "alice", role := .user
    content := "hello", created_at := 10 }

/-- Middle message of conversation 7. -/
def msgMiddle : Message :=
  { id := 2, conversation_id := 7, user_id := "alice", role := .assistant
    content := "hi there", created_at := 20 }

/-- Newest message of conversation 7. -/
def msgNewer : Message :=
  { id := 3, conversation_id := 7, user_id := "alice", role := .user
    content := "add a task", created_at := 30 }

/-- Message belonging to a different conversation. -/
def msgOtherConv : Message :=
  { id := 4, conversation_id := 8, user_id := "bob", role := .user
    content := "other", created_at := 15 }

/-- Example message store holding both conversations, in scrambled
order. -/
def exampleStore : List Message :=
  [msgMiddle, msgOtherConv, msgNewer, msgOlder]

/-!
Theorems.  Each claim of the specification is settled by one theorem
below; concrete witness and counterexample inputs are built from the
definitions above.
-/

/-- C4: for every store, conversation and window size `W`, the history
window loaded by `load_conversation_history` contains at most `W` stored
messages even when more messages exist in storage, and the total message
sequence the model receives — the system instruction block, the formatted
history window, and the one new user message — contains at most `W + 2`
entries. -/
theorem c4_history_window_bounded (store : List Message)
    (conversation_id W : Nat) (today user_id message : String) :
    (load_conversation_history store conversation_id W).length ≤ W ∧
    (model_messages today user_id message
        (format_conversation_history
          (load_conversation_history store conversation_id W))).length
      ≤ W + 2 := by
  have h1 : (load_conversation_history store conversation_id W).length ≤ W := by
    simp only [load_conversation_history, List.length_reverse, List.length_take]
    omega
  refine ⟨h1, ?_⟩
  simp only [model_messages, full_input, format_conversation_history,
    List.length_cons, List.length_append, List.length_map, List.length_nil]
  omega

/-- C6: for every user id, message and history list, the prompt builder
produces the model input as the formatted history in its given order —
roles and contents preserved pointwise — followed by exactly one new user
message whose content is the identity tag carrying the owning user id
prepended to the user's text; the system instruction block heads the model
message sequence and contains the per-call current date. -/
theorem c6_prompt_builder_shape (today user_id message : String)
    (history : List Message) :
    List.Forall₂
        (fun (m : Message) (c : ChatMessage) =>
          c.role = m.role.value.toLower ∧ c.content = m.content)
        history (format_conversation_history history) ∧
    full_input user_id message (format_conversation_history history) =
      format_conversation_history history ++ [new_user_message user_id message] ∧
    (new_user_message user_id message).role = "user" ∧
    (new_user_message user_id message).content =
      "[User ID: " ++ user_id ++ "]\n" ++ message ∧
    (∃ p q, get_system_prompt today = p ++ (today ++ q)) ∧
    (model_messages today user_id message
        (format_conversation_history history)).head? =
      some { role := "system", content := get_system_prompt today } := by
  refine ⟨?_, rfl, rfl, ?_, ?_, rfl⟩
  · rw [format_conversation_history, List.forall₂_map_right_iff]
    exact List.forall₂_same.mpr (fun m _ => ⟨rfl, rfl⟩)
  · simp [new_user_message, full_message, String.append_assoc]
  · refine ⟨promptPart1,
      promptPart2a ++ singleExecutionRule ++ promptPart2b ++ securityRule
        ++ promptPart2c ++ today ++ promptPart3, ?_⟩
    simp only [get_system_prompt, String.append_assoc]

/-- C8: for every execution of a turn — successful, failing with any
error, or cancelled — the MCP connection opened at turn start is closed by
turn end on every exit path, in both the non-streaming and the streaming
entry point: the connection ledger shows as many closes as opens. -/
theorem c8_connection_closed_on_every_path (b : TurnBehavior)
    (user_id message : String) (conversation_history : List Message) :
    (run_agent b user_id message conversation_history).ledger.closed =
      (run_agent b user_id message conversation_history).ledger.opened ∧
    (run_agent_streamed b user_id message conversation_history).ledger.closed =
      (run_agent_streamed b user_id message conversation_history).ledger.opened := by
  rcases b with ⟨key, conn, fr, rr⟩
  cases key <;> cases conn <;> cases fr <;>
    simp [run_agent, run_agent_streamed, create_agent_opens]

/-- Transitivity of the descending `created_at` comparison. -/
theorem byCreatedAtDesc_trans (a b c : Message) :
    byCreatedAtDesc a b = true → byCreatedAtDesc b c = true →
    byCreatedAtDesc a c = true := by
  simp only [byCreatedAtDesc, decide_eq_true_eq]
  omega

/-- Totality of the descending `created_at` comparison. -/
theorem byCreatedAtDesc_total (a b : Message) :
    (byCreatedAtDesc a b || byCreatedAtDesc b a) = true := by
  simp only [byCreatedAtDesc, Bool.or_eq_true, decide_eq_true_eq]
  omega

/-- Core property of the sort-descending / take / reverse pipeline of
`load_conversation_history`: the result is non-decreasing by
`created_at`, all its elements come from the input, every excluded input
element is no newer than every kept one, and under pairwise-distinct
timestamps the result is strictly increasing. -/
theorem windowed_sort_spec (l : List Message) (limit : Nat) :
    (((l.mergeSort byCreatedAtDesc).take limit).reverse.Pairwise
      (fun a b => a.created_at ≤ b.created_at)) ∧
    (∀ m ∈ ((l.mergeSort byCreatedAtDesc).take limit).reverse, m ∈ l) ∧
    (∀ m' ∈ l, m' ∉ ((l.mergeSort byCreatedAtDesc).take limit).reverse →
      ∀ m ∈ ((l.mergeSort byCreatedAtDesc).take limit).reverse,
        m'.created_at ≤ m.created_at) ∧
    ((l.Pairwise fun a b => a.created_at ≠ b.created_at) →
      ((l.mergeSort byCreatedAtDesc).take limit).reverse.Pairwise
        (fun a b => a.created_at < b.created_at)) := by
  have hsorted : (l.mergeSort byCreatedAtDesc).Pairwise
      (fun a b => byCreatedAtDesc a b = true) :=
    @List.sorted_mergeSort Message byCreatedAtDesc byCreatedAtDesc_trans
      byCreatedAtDesc_total l
  have hperm : (l.mergeSort byCreatedAtDesc).Perm l :=
    List.mergeSort_perm l byCreatedAtDesc
  have htake : ((l.mergeSort byCreatedAtDesc).take limit).Pairwise
      (fun a b => b.created_at ≤ a.created_at) :=
    (List.Pairwise.sublist (List.take_sublist limit _) hsorted).imp
      (fun h => by simpa [byCreatedAtDesc] using h)
  refine ⟨?_, ?_, ?_, ?_⟩
  · exact List.pairwise_reverse.mpr htake
  · intro m hm
    rw [List.mem_reverse] at hm
    exact hperm.mem_iff.mp ((List.take_sublist limit _).subset hm)
  · intro m' hm' hnot m hm
    rw [List.mem_reverse] at hm
    have hm's : m' ∈ l.mergeSort byCreatedAtDesc := hperm.mem_iff.mpr hm'
    have hnot_take : m' ∉ (l.mergeSort byCreatedAtDesc).take limit := by
      intro h
      exact hnot (List.mem_reverse.mpr h)
    have hm'drop : m' ∈ (l.mergeSort byCreatedAtDesc).drop limit := by
      rw [← List.take_append_drop limit (l.mergeSort byCreatedAtDesc),
        List.mem_append] at hm's
      exact hm's.resolve_left hnot_take
    have hsplit := hsorted
    rw [← List.take_append_drop limit (l.mergeSort byCreatedAtDesc)] at hsplit
    have h3 := (List.pairwise_append.mp hsplit).2.2 m hm m' hm'drop
    simpa [byCreatedAtDesc] using h3
  · intro hdistinct
    have hne_s : (l.mergeSort byCreatedAtDesc).Pairwise
        (fun a b => a.created_at ≠ b.created_at) :=
      hdistinct.perm hperm.symm (fun h => h.symm)
    have hne_take : ((l.mergeSort byCreatedAtDesc).take limit).Pairwise
        (fun a b => a.created_at ≠ b.created_at) :=
      List.Pairwise.sublist (List.take_sublist limit _) hne_s
    have hlt_take : ((l.mergeSort byCreatedAtDesc).take limit).Pairwise
        (fun a b => b.created_at < a.created_at) :=
      (htake.and hne_take).imp (fun h => by omega)
    exact List.pairwise_reverse.mpr hlt_take

/-- C5: for every conversation, reading back its history returns messages
in chronological order, oldest first: the loader's output is non-decreasing
by creation time, strictly increasing under the spec's ordering invariant
that no two messages of the conversation share a creation time, every
returned message belongs to the conversation, and the output consists of
the most recent messages — any conversation message left out is no newer
than every message returned. -/
theorem c5_history_chronological_order (store : List Message)
    (conversation_id limit : Nat)
    (hdistinct : (conversationMessages store conversation_id).Pairwise
      (fun a b => a.created_at ≠ b.created_at)) :
    (load_conversation_history store conversation_id limit).Pairwise
      (fun a b => a.created_at ≤ b.created_at) ∧
    (load_conversation_history store conversation_id limit).Pairwise
      (fun a b => a.created_at < b.created_at) ∧
    (∀ m ∈ load_conversation_history store conversation_id limit,
      m.conversation_id = conversation_id) ∧
    (∀ m' ∈ conversationMessages store conversation_id,
      m' ∉ load_conversation_history store conversation_id limit →
      ∀ m ∈ load_conversation_history store conversation_id limit,
        m'.created_at ≤ m.created_at) := by
  obtain ⟨h1, h2, h3, h4⟩ :=
    windowed_sort_spec (conversationMessages store conversation_id) limit
  refine ⟨?_, ?_, ?_, ?_⟩
  · simpa [load_conversation_history] using h1
  · simpa [load_conversation_history] using h4 hdistinct
  · intro m hm
    have hmem := h2 m (by simpa [load_conversation_history] using hm)
    rw [conversationMessages, List.mem_filter] at hmem
    simpa using hmem.2
  · intro m' hm' hnot m hm
    exact h3 m' hm' (by simpa [load_conversation_history] using hnot) m
      (by simpa [load_conversation_history] using hm)

/-- Witness for C5 on the concrete example store: conversation 7 has
pairwise distinct timestamps, and with window size 2 the loaded history is
strictly increasing by creation time. -/
theorem c5_history_chronological_order_witness :
    (conversationMessages exampleStore 7).Pairwise
      (fun a b => a.created_at ≠ b.created_at) ∧
    (load_conversation_history exampleStore 7 2).Pairwise
      (fun a b => a.created_at < b.created_at) :=
  ⟨by decide, (c5_history_chronological_order exampleStore 7 2 (by decide)).2.1⟩

/-- Counterexample to C1: in the environment `behaviorOk
duplicateResponse` the model requests the same tool with the same
canonicalized arguments twice in one turn, and the turn executes the
underlying tool twice — not exactly once as the claim states.  `run_agent`
maintains no per-turn seen-signatures set. -/
theorem c1_counterexample_duplicate_executed_twice :
    duplicateResponse.toolRequests.count exampleCall = 2 ∧
    (run_agent (behaviorOk duplicateResponse) "alice" "add buy milk"
        []).executedCalls.count exampleCall = 2 ∧
    ¬ ((run_agent (behaviorOk duplicateResponse) "alice" "add buy milk"
        []).executedCalls.count exampleCall = 1) := by
  decide

/-- C1 (amended): duplicate-call suppression is not enforced by the
orchestration code.  The turn executes every model-requested tool call —
the execution count of each signature equals its request count, duplicates
included — and the only duplicate-call safeguard is the system prompt's
single-execution instruction to the model. -/
theorem c1_suppression_is_prompt_instruction_only (today : String)
    (requests : List ToolCall) (c : ToolCall) :
    (dispatched requests).count c = requests.count c ∧
    ∃ p q, get_system_prompt today = p ++ (singleExecutionRule ++ q) := by
  refine ⟨rfl, promptPart1 ++ today ++ promptPart2a,
    promptPart2b ++ securityRule ++ promptPart2c ++ today ++ promptPart3, ?_⟩
  simp only [get_system_prompt, String.append_assoc]

/-- Counterexample to C2: with authenticated user `alice`, a turn in which
the model supplies `user_id = "mallory"` in the tool arguments executes
the call with `mallory` — the dispatch step does not inject or overwrite
the authenticated id into the invocation's arguments, even though the
out-of-band call context carries `alice`. -/
theorem c2_counterexample_model_supplied_user_id :
    (run_agent (behaviorOk spoofResponse) "alice" "add x" []).invocation =
      some { input := full_input "alice" "add x" []
             context_user_id := "alice" } ∧
    (run_agent (behaviorOk spoofResponse) "alice" "add x" []).executedCalls =
      [spoofedCall] ∧
    spoofedCall.arguments.lookup "user_id" = some "mallory" ∧
    (some "mallory" : Option String) ≠ some "alice" := by
  decide

/-- C2 (amended): the authenticated user id is carried out-of-band as the
runner's call context and embedded as the identity tag of the new user
message, but the dispatch step does not stamp it into tool-call arguments:
`dispatched` passes every request through unchanged, and the system
prompt's security rule instructs the model itself to echo the id into
every tool call — so the argument-level identity is model-supplied. -/
theorem c2_context_carried_but_not_stamped (b : TurnBehavior)
    (user_id message today : String) (conversation_history : List Message)
    (hkey : b.apiKeyPresent = true) (hconn : b.connectSucceeds = true) :
    (run_agent b user_id message conversation_history).invocation =
      some { input := full_input user_id message
               (format_conversation_history conversation_history)
             context_user_id := user_id } ∧
    (new_user_message user_id message).content =
      "[User ID: " ++ user_id ++ "]\n" ++ message ∧
    (∃ p q, get_system_prompt today = p ++ (securityRule ++ q)) ∧
    (∀ requests : List ToolCall, dispatched requests = requests) := by
  refine ⟨?_, ?_, ?_, fun _ => rfl⟩
  · cases hfr : b.firstRun <;>
      simp [run_agent, create_agent_opens, hkey, hconn, hfr]
  · simp [new_user_message, full_message, String.append_assoc]
  · refine ⟨promptPart1 ++ today ++ promptPart2a ++ singleExecutionRule
      ++ promptPart2b, promptPart2c ++ today ++ promptPart3, ?_⟩
    simp only [get_system_prompt, String.append_assoc]

/-- Witness for C2 (amended) at a concrete turn: the runner is invoked
with context user id `alice`. -/
theorem c2_context_carried_but_not_stamped_witness :
    (behaviorOk okResponse).apiKeyPresent = true ∧
    (run_agent (behaviorOk okResponse) "alice" "hello" []).invocation =
      some { input := full_input "alice" "hello"
               (format_conversation_history [])
             context_user_id := "alice" } :=
  ⟨by decide,
    (c2_context_carried_but_not_stamped (behaviorOk okResponse) "alice"
      "hello" "Friday, October 10, 2025" [] (by decide) (by decide)).1⟩

/-- Counterexample to C3: a turn in which the model requests nine tool
calls executes all nine — more than the claimed iteration cap of 8 — and
terminates with the model's own final text unmodified: no forced
truncation at the cap and no appended truncation notice. -/
theorem c3_counterexample_nine_calls_executed :
    (run_agent (behaviorOk manyCallsResponse) "alice" "do many things"
        []).executedCalls.length = 9 ∧
    ¬ ((run_agent (behaviorOk manyCallsResponse) "alice" "do many things"
        []).executedCalls.length ≤ 8) ∧
    (run_agent (behaviorOk manyCallsResponse) "alice" "do many things"
        []).outcome = .answer "done" := by
  decide

/-- C3 (amended): the repository code enforces no iteration cap.  A
successful turn executes exactly the tool calls the model requested —
however many — and returns the model's final output (or the fallback for
an empty output) with nothing appended; `get_agent_config` exposes no
iteration-cap setting.  Loop bounding is delegated to the external
`agents` SDK. -/
theorem c3_no_iteration_cap_in_code (b : TurnBehavior)
    (user_id message : String) (conversation_history : List Message)
    (r : ModelResponse)
    (hkey : b.apiKeyPresent = true) (hconn : b.connectSucceeds = true)
    (hrun : b.firstRun = .success r) :
    (run_agent b user_id message conversation_history).executedCalls.length =
      r.toolRequests.length ∧
    (run_agent b user_id message conversation_history).outcome =
      .answer (if final_output r = "" then fallbackAnswer else final_output r) ∧
    "iteration_cap" ∉ agentConfigKeys ∧
    "max_iterations" ∉ agentConfigKeys := by
  refine ⟨?_, ?_, by decide, by decide⟩ <;>
    simp [run_agent, create_agent_opens, hkey, hconn, hrun, dispatched]

/-- Witness for C3 (amended) at a concrete turn: all nine requested calls
are executed. -/
theorem c3_no_iteration_cap_in_code_witness :
    (behaviorOk manyCallsResponse).firstRun = .success manyCallsResponse ∧
    (run_agent (behaviorOk manyCallsResponse) "alice" "do many things"
        []).executedCalls.length = manyCallsResponse.toolRequests.length :=
  ⟨by decide,
    (c3_no_iteration_cap_in_code (behaviorOk manyCallsResponse) "alice"
      "do many things" [] manyCallsResponse (by decide) (by decide)
      (by decide)).1⟩

/-- Counterexample to C7: when the deterministic model response has no
text deltas, the streaming entry point yields chunks concatenating to the
empty string while the non-streaming entry point returns the non-empty
fallback apology — the two entry points disagree for this identical
response. -/
theorem c7_counterexample_empty_output_mismatch :
    String.join (run_agent_streamed (behaviorOk emptyOutputResponse)
        "alice" "add x" []).chunks = "" ∧
    (run_agent (behaviorOk emptyOutputResponse) "alice" "add x"
        []).outcome = .answer fallbackAnswer ∧
    fallbackAnswer ≠ "" := by
  decide

/-- C7 (amended): for an identical deterministic model response whose
final output is non-empty, the concatenation of all text chunks yielded by
the streaming entry point equals the final answer string returned by the
non-streaming entry point; the streaming emitter forwards only text-delta
payloads, in emission order. -/
theorem c7_stream_concat_matches_nonempty_final (b : TurnBehavior)
    (user_id message : String) (conversation_history : List Message)
    (r : ModelResponse)
    (hkey : b.apiKeyPresent = true) (hconn : b.connectSucceeds = true)
    (hrun : b.firstRun = .success r) (hne : final_output r ≠ "") :
    String.join (run_agent_streamed b user_id message
        conversation_history).chunks = final_output r ∧
    (run_agent b user_id message conversation_history).outcome =
      .answer (String.join (run_agent_streamed b user_id message
        conversation_history).chunks) := by
  have h1 : String.join (run_agent_streamed b user_id message
      conversation_history).chunks = final_output r := by
    simp [run_agent_streamed, create_agent_opens, hkey, hconn, hrun,
      final_output]
  refine ⟨h1, ?_⟩
  rw [h1]
  simp [run_agent, create_agent_opens, hkey, hconn, hrun, hne]

/-- Witness for C7 (amended) at a concrete turn with non-empty output:
streamed chunks concatenate to the non-streamed final answer. -/
theorem c7_stream_concat_matches_nonempty_final_witness :
    final_output okResponse ≠ "" ∧
    String.join (run_agent_streamed (behaviorOk okResponse) "alice"
        "hello" []).chunks = final_output okResponse :=
  ⟨by decide,
    (c7_stream_concat_matches_nonempty_final (behaviorOk okResponse)
      "alice" "hello" [] okResponse (by decide) (by decide) (by decide)
      (by decide)).1⟩

/-- Counterexample to C9: the loop performs no retries.  With a
model-provider failure on the first runner attempt — in an environment
where a second attempt would have succeeded — the turn raises after
exactly one attempt; with a tool-connection failure the turn likewise
raises the original error, and no generic apology is returned to the
caller. -/
theorem c9_counterexample_no_retry :
    (run_agent (behaviorFailFirst .modelProviderError) "alice" "hi"
        []).outcome = .raised .modelProviderError ∧
    (run_agent (behaviorFailFirst .modelProviderError) "alice" "hi"
        []).providerAttempts = 1 ∧
    (behaviorFailFirst .modelProviderError).retryRun = .success okResponse ∧
    (run_agent (behaviorFailFirst .toolConnectionError) "alice" "hi"
        []).outcome = .raised .toolConnectionError ∧
    (run_agent (behaviorFailFirst .toolConnectionError) "alice" "hi"
        []).outcome ≠ .answer fallbackAnswer := by
  decide

/-- C9 (amended): `run_agent` makes exactly one runner attempt per turn
and performs no retries: any error the attempt raises — model provider,
tool connection, or cancellation — is re-raised to the caller unchanged
after the MCP connection is closed, and no apology message is produced on
the error path. -/
theorem c9_errors_propagate_without_retry (b : TurnBehavior)
    (user_id message : String) (conversation_history : List Message)
    (e : AgentError) (partialEvents : List StreamEvent)
    (partialCalls : List ToolCall)
    (hkey : b.apiKeyPresent = true) (hconn : b.connectSucceeds = true)
    (hrun : b.firstRun = .failure e partialEvents partialCalls) :
    (run_agent b user_id message conversation_history).outcome =
      .raised e ∧
    (run_agent b user_id message conversation_history).providerAttempts = 1 ∧
    (run_agent b user_id message conversation_history).ledger =
      { opened := 1, closed := 1 } := by
  refine ⟨?_, ?_, ?_⟩ <;>
    simp [run_agent, create_agent_opens, hkey, hconn, hrun]

/-- Witness for C9 (amended) at a concrete failing turn: the provider
error propagates after one attempt. -/
theorem c9_errors_propagate_without_retry_witness :
    (behaviorFailFirst .modelProviderError).firstRun =
      .failure .modelProviderError [] [] ∧
    (run_agent (behaviorFailFirst .modelProviderError) "alice" "hi"
        []).providerAttempts = 1 :=
  ⟨by decide,
    (c9_errors_propagate_without_retry (behaviorFailFirst .modelProviderError)
      "alice" "hi" [] .modelProviderError [] [] (by decide) (by decide)
      (by decide)).2.1⟩

/-- C10: the non-streaming entry point never returns an empty answer: on
every successful turn, if the model's final output is empty the fixed
non-empty fallback apology is returned instead, and otherwise the
non-empty output itself is returned. -/
theorem c10_answer_never_empty (b : TurnBehavior)
    (user_id message : String) (conversation_history : List Message)
    (r : ModelResponse)
    (hkey : b.apiKeyPresent = true) (hconn : b.connectSucceeds = true)
    (hrun : b.firstRun = .success r) :
    ∃ s, (run_agent b user_id message conversation_history).outcome =
      .answer s ∧ s ≠ "" := by
  by_cases h : final_output r = ""
  · exact ⟨fallbackAnswer,
      by simp [run_agent, create_agent_opens, hkey, hconn, hrun, h],
      by decide⟩
  · exact ⟨final_output r,
      by simp [run_agent, create_agent_opens, hkey, hconn, hrun, h], h⟩

/-- Witness for C10 at a concrete turn whose model output is empty: a
non-empty answer is still returned. -/
theorem c10_answer_never_empty_witness :
    (behaviorOk emptyOutputResponse).firstRun =
      .success emptyOutputResponse ∧
    ∃ s, (run_agent (behaviorOk emptyOutputResponse) "alice" "add x"
      []).outcome = .answer s ∧ s ≠ "" :=
  ⟨by decide,
    c10_answer_never_empty (behaviorOk emptyOutputResponse) "alice"
      "add x" [] emptyOutputResponse (by decide) (by decide) (by decide)⟩
